import Mathlib

/-!
Verification of the telemetry ingestion/storage/query engine of the
AI-Incident-Resolver repository (src/mcp-server).

The Python modules are shallowly embedded:
  * `telemetry_store.py` : canonical model (`Span`, `LogRecord`,
    `MetricDataPoint`), the bounded `TelemetryStore` (deques with `maxlen`),
    the query functions, and the OTLP-JSON decoders;
  * `otlp_receiver.py`   : the protobuf-side decoders;
  * `file_watcher.py`    : the file-tail ingestor (`TelemetryFileHandler`,
    `TelemetryWatcher`);
  * `server.py`          : the incident analyzer (`analyze_incident`) and the
    `get_code_locations` tool.

Modelling conventions:
  * Python `datetime` values are rationals (seconds since the epoch);
    `timedelta(minutes=m)` is `m * 60`.
  * Python dynamic values (what `json.loads` returns) are the inductive
    `PyVal`; Python `dict`s are association lists kept in encounter order.
  * Python float arithmetic is modelled over `ℚ`; every concrete number used
    in a theorem is exactly representable, and no theorem depends on
    rounding error of the binary representation.
  * `deque(maxlen=n)` is a list that drops its oldest (front) entries on
    append past capacity.
  * `list.sort(key=..., reverse=...)` (a stable sort) is Mathlib's stable
    `List.insertionSort` with the corresponding total preorder.
  * Thread locks serialize access; the per-call semantics of each operation
    is the lock-free function embedded here.
-/

mutual
/-- A Python runtime value, as produced by `json.loads`.  Lists and dicts
carry their own spine types so that every function on `PyVal` is plain
structural recursion; dicts are association lists in encounter order. -/
inductive PyVal where
  | str (s : String)
  | int (n : Int)
  | float (q : ℚ)
  | bool (b : Bool)
  | list (xs : PyList)
  | dict (kvs : PyKVs)
  | none

/-- Spine of a Python list value. -/
inductive PyList where
  | nil
  | cons (v : PyVal) (t : PyList)

/-- Spine of a Python dict value (string keys, encounter order). -/
inductive PyKVs where
  | nil
  | cons (k : String) (v : PyVal) (t : PyKVs)
end

/-- `dict.get(k)` on a dict spine: the value at the first matching key. -/
def PyKVs.lookup (k : String) : PyKVs → Option PyVal
  | .nil => Option.none
  | .cons k' v t => if k' = k then Option.some v else PyKVs.lookup k t

/-- Membership of a key in a dict spine (`k in d`). -/
def PyKVs.hasKey (k : String) : PyKVs → Bool
  | .nil => false
  | .cons k' _ t => k' == k || PyKVs.hasKey k t

mutual
/-- Python `repr`, for the value shapes the decoders meet (string quoting is
modelled without escaping; no claim exercises quotes inside strings, and
`float` repr is approximated, never exercised). -/
def pyRepr : PyVal → String
  | .str s => "\x27" ++ s ++ "\x27"
  | .int n => toString n
  | .float q => toString q
  | .bool b => if b then "True" else "False"
  | .none => "None"
  | .list xs => "[" ++ pyReprList xs ++ "]"
  | .dict kvs => "\x7b" ++ pyReprKVs kvs ++ "\x7d"

/-- Comma-separated `repr` of a list spine's items. -/
def pyReprList : PyList → String
  | .nil => ""
  | .cons v .nil => pyRepr v
  | .cons v t => pyRepr v ++ ", " ++ pyReprList t

/-- Comma-separated `repr` of a dict spine's `'key': value` pairs. -/
def pyReprKVs : PyKVs → String
  | .nil => ""
  | .cons k v .nil => "\x27" ++ k ++ "\x27: " ++ pyRepr v
  | .cons k v t => "\x27" ++ k ++ "\x27: " ++ pyRepr v ++ ", " ++ pyReprKVs t
end

/-- Python `str`: identity on strings, `repr`-like elsewhere. -/
def pyStr (v : PyVal) : String :=
  match v with
  | .str s => s
  | _ => pyRepr v

/-- `datetime` modelled as rational seconds since the epoch. -/
abbrev PyTime := ℚ

/-- `telemetry_store.Span` (the `code_*` fields appear in the dataclass
version constructed by `otlp_receiver.py`/`server.py` and in the spec's data
model; `telemetry_store.py`'s own dataclass omits them and they default to
`Option.none`). -/
structure Span where
  trace_id : String
  span_id : String
  parent_span_id : Option String
  name : String
  service_name : String
  start_time : PyTime
  end_time : PyTime
  status_code : String
  attributes : List (String × PyVal) := []
  events : List PyVal := []
  code_filepath : Option String := Option.none
  code_function : Option String := Option.none
  code_lineno : Option Int := Option.none
  code_namespace : Option String := Option.none

/-- `Span.duration_ms`. -/
def Span.duration_ms (s : Span) : ℚ := (s.end_time - s.start_time) * 1000

/-- `Span.is_error`: `status_code == "ERROR"`. -/
def Span.is_error (s : Span) : Bool := s.status_code == "ERROR"

/-- `telemetry_store.LogRecord`. -/
structure LogRecord where
  timestamp : PyTime
  severity : String
  body : String
  service_name : String
  trace_id : Option String := Option.none
  span_id : Option String := Option.none
  attributes : List (String × PyVal) := []
  code_filepath : Option String := Option.none
  code_function : Option String := Option.none
  code_lineno : Option Int := Option.none
  code_namespace : Option String := Option.none

/-- `LogRecord.is_error`: `severity in ("ERROR", "FATAL")`. -/
def LogRecord.is_error (l : LogRecord) : Bool :=
  l.severity == "ERROR" || l.severity == "FATAL"

/-- `telemetry_store.MetricDataPoint`. -/
structure MetricDataPoint where
  timestamp : PyTime
  name : String
  value : ℚ
  service_name : String
  unit : String := ""
  attributes : List (String × PyVal) := []

/-- `TelemetryStore`: three `deque(maxlen=...)`s plus the service set.  The
service set is modelled as a duplicate-free list in insertion order. -/
structure TelemetryStore where
  max_spans : Nat
  max_logs : Nat
  max_metrics : Nat
  spans : List Span := []
  logs : List LogRecord := []
  metrics : List MetricDataPoint := []
  services : List String := []

/-- `TelemetryStore(max_spans, max_logs, max_metrics)` freshly constructed. -/
def TelemetryStore.init (max_spans max_logs max_metrics : Nat) : TelemetryStore :=
  { max_spans := max_spans, max_logs := max_logs, max_metrics := max_metrics }

/-- `deque.append` on a `deque(maxlen := maxlen)`: append on the right and
drop from the left whatever exceeds the capacity. -/
def boundedAppend (maxlen : Nat) (xs : List α) (x : α) : List α :=
  let ys := xs ++ [x]
  ys.drop (ys.length - maxlen)

/-- `set.add` on the service registry. -/
def addService (services : List String) (name : String) : List String :=
  if name ∈ services then services else services ++ [name]

/-- `TelemetryStore.add_span`. -/
def TelemetryStore.add_span (st : TelemetryStore) (s : Span) : TelemetryStore :=
  { st with spans := boundedAppend st.max_spans st.spans s
            services := addService st.services s.service_name }

/-- `TelemetryStore.add_log`. -/
def TelemetryStore.add_log (st : TelemetryStore) (l : LogRecord) : TelemetryStore :=
  { st with logs := boundedAppend st.max_logs st.logs l
            services := addService st.services l.service_name }

/-- `TelemetryStore.add_metric`. -/
def TelemetryStore.add_metric (st : TelemetryStore) (m : MetricDataPoint) : TelemetryStore :=
  { st with metrics := boundedAppend st.max_metrics st.metrics m
            services := addService st.services m.service_name }

/-- Ascending order on a rational sort key (`list.sort(key=f)`). -/
def byKeyAsc (f : α → ℚ) (a b : α) : Prop := f a ≤ f b

/-- Descending order on a rational sort key (`list.sort(key=f, reverse=True)`). -/
def byKeyDesc (f : α → ℚ) (a b : α) : Prop := f b ≤ f a

instance (f : α → ℚ) : DecidableRel (byKeyAsc f) :=
  fun a b => inferInstanceAs (Decidable (f a ≤ f b))

instance (f : α → ℚ) : DecidableRel (byKeyDesc f) :=
  fun a b => inferInstanceAs (Decidable (f b ≤ f a))

instance (f : α → ℚ) : IsTotal α (byKeyAsc f) :=
  ⟨fun a b => le_total (f a) (f b)⟩

instance (f : α → ℚ) : IsTotal α (byKeyDesc f) :=
  ⟨fun a b => le_total (f b) (f a)⟩

instance (f : α → ℚ) : IsTrans α (byKeyAsc f) :=
  ⟨fun _ _ _ h h' => le_trans h h'⟩

instance (f : α → ℚ) : IsTrans α (byKeyDesc f) :=
  ⟨fun _ _ _ h h' => le_trans h' h⟩

/-- Python truthiness of an optional-string argument (`None` and `""` are
falsy, so `if service:` skips the filter for both). -/
def optStrTruthy : Option String → Bool
  | Option.none => false
  | Option.some s => s != ""

/-- `TelemetryStore.get_recent_spans(limit, service, errors_only, since)`:
snapshot, successive optional filters (`if service:` is Python truthiness, so
`None` and `""` both skip it; `since` is inclusive), stable sort by
`start_time` descending, first `limit`. -/
def TelemetryStore.get_recent_spans (st : TelemetryStore) (limit : Nat)
    (service : Option String) (errors_only : Bool) (since : Option PyTime) :
    List Span :=
  let spans := st.spans
  let spans : List Span := match service with
    | Option.some sv => if sv != "" then spans.filter (fun s => s.service_name == sv) else spans
    | Option.none => spans
  let spans := if errors_only then spans.filter (fun s => s.is_error) else spans
  let spans : List Span := match since with
    | Option.some t => spans.filter (fun s => decide (t ≤ s.start_time))
    | Option.none => spans
  (spans.insertionSort (byKeyDesc Span.start_time)).take limit

/-- `TelemetryStore.get_recent_logs(limit, service, severity, errors_only,
since)`, sorted by `timestamp` descending. -/
def TelemetryStore.get_recent_logs (st : TelemetryStore) (limit : Nat)
    (service : Option String) (severity : Option String) (errors_only : Bool)
    (since : Option PyTime) : List LogRecord :=
  let logs := st.logs
  let logs : List LogRecord := match service with
    | Option.some sv => if sv != "" then logs.filter (fun l => l.service_name == sv) else logs
    | Option.none => logs
  let logs : List LogRecord := match severity with
    | Option.some sev => if sev != "" then logs.filter (fun l => l.severity == sev) else logs
    | Option.none => logs
  let logs := if errors_only then logs.filter (fun l => l.is_error) else logs
  let logs : List LogRecord := match since with
    | Option.some t => logs.filter (fun l => decide (t ≤ l.timestamp)) 
    | Option.none => logs
  (logs.insertionSort (byKeyDesc LogRecord.timestamp)).take limit

/-- `TelemetryStore.get_recent_metrics(limit, service, metric_name, since)`,
sorted by `timestamp` descending. -/
def TelemetryStore.get_recent_metrics (st : TelemetryStore) (limit : Nat)
    (service : Option String) (metric_name : Option String)
    (since : Option PyTime) : List MetricDataPoint :=
  let metrics := st.metrics
  let metrics : List MetricDataPoint := match service with
    | Option.some sv => if sv != "" then metrics.filter (fun m => m.service_name == sv) else metrics
    | Option.none => metrics
  let metrics : List MetricDataPoint := match metric_name with
    | Option.some mn => if mn != "" then metrics.filter (fun m => m.name == mn) else metrics
    | Option.none => metrics
  let metrics : List MetricDataPoint := match since with
    | Option.some t => metrics.filter (fun m => decide (t ≤ m.timestamp))
    | Option.none => metrics
  (metrics.insertionSort (byKeyDesc MetricDataPoint.timestamp)).take limit

/-- `TelemetryStore.get_trace(trace_id)`: spans of the trace, stable sort by
`start_time` ascending. -/
def TelemetryStore.get_trace (st : TelemetryStore) (tid : String) : List Span :=
  (st.spans.filter (fun s => s.trace_id == tid)).insertionSort (byKeyAsc Span.start_time)

/-- The entity lists of `TelemetryStore.get_errors` (the summary counts are
their lengths). -/
structure ErrorsResult where
  error_spans : List Span
  error_logs : List LogRecord

/-- `TelemetryStore.get_errors(limit, since_minutes)`; `now` stands for
`datetime.utcnow()` and `since = now - timedelta(minutes=since_minutes)`. -/
def TelemetryStore.get_errors (st : TelemetryStore) (limit : Nat)
    (since_minutes : ℚ) (now : PyTime) : ErrorsResult :=
  let since := now - since_minutes * 60
  { error_spans := st.get_recent_spans limit Option.none true (Option.some since)
    error_logs := st.get_recent_logs limit Option.none Option.none true (Option.some since) }

/-- Python `round` to `n = 2` decimal digits, on rationals: round-half-even
of `x * 100`, divided by 100 (the claims only exercise values whose binary
double rounding agrees with the exact rational rounding). -/
def pyRoundHalfEven (x : ℚ) : Int :=
  let f := ⌊x⌋
  let r := x - f
  if r < 1/2 then f else if 1/2 < r then f + 1 else if f % 2 = 0 then f else f + 1

/-- `round(x, 2)` over `ℚ`. -/
def pyRound2 (x : ℚ) : ℚ := (pyRoundHalfEven (x * 100) : ℚ) / 100

/-- The `summary` block of the `analyze_incident` report (`server.py`). -/
structure AnalyzeSummary where
  total_spans : Nat
  total_logs : Nat
  error_spans : Nat
  error_logs : Nat
  error_rate_percent : ℚ
  slow_spans_count : Nat

/-- `analyze_incident(since_minutes)` from `server.py`: trailing window
`since = now - timedelta(minutes=since_minutes)`, errors via
`get_errors(limit=100)`, spans/logs via `get_recent_spans/logs(limit=200)`,
`error_rate = len(error_spans)/len(all_spans)*100 if all_spans else 0`, and
`error_rate_percent = round(error_rate, 2)` in the summary.  The report's
two `utcnow()` calls are modelled by the single parameter `now`. -/
def analyze_incident (st : TelemetryStore) (since_minutes : ℚ) (now : PyTime) :
    AnalyzeSummary :=
  let since := now - since_minutes * 60
  let errors := st.get_errors 100 since_minutes now
  let all_spans := st.get_recent_spans 200 Option.none false (Option.some since)
  let all_logs := st.get_recent_logs 200 Option.none Option.none false (Option.some since)
  let error_rate : ℚ :=
    if all_spans.isEmpty then 0
    else (errors.error_spans.length : ℚ) / (all_spans.length : ℚ) * 100
  let slow_spans := all_spans.filter (fun s => decide (1000 < s.duration_ms))
  { total_spans := all_spans.length
    total_logs := all_logs.length
    error_spans := errors.error_spans.length
    error_logs := errors.error_logs.length
    error_rate_percent := pyRound2 error_rate
    slow_spans_count := slow_spans.length }

/-- `parse_otel_timestamp` on the nanosecond-integer inputs the decoders
feed it (`timeUnixNano`/`time_unix_nano`): `datetime.utcfromtimestamp(ns / 1e9)`,
i.e. division by 10^9.  The ISO-string branches of the source function are
never reached on these inputs. -/
def parse_otel_timestamp (ns : Int) : PyTime := (ns : ℚ) / 1000000000

/-- The `severity_map` dict literal of `parse_log_from_otel`
(`telemetry_store.py`), embedded entry for entry; `Option.none` is a key
miss. -/
def severity_map_json : Nat → Option String
  | 1 | 2 | 3 | 4 => Option.some "TRACE"
  | 5 | 6 | 7 | 8 => Option.some "DEBUG"
  | 9 | 10 | 11 | 12 => Option.some "INFO"
  | 13 | 14 | 15 | 16 => Option.some "WARN"
  | 17 | 18 | 19 | 20 => Option.some "ERROR"
  | 21 | 22 | 23 | 24 => Option.some "FATAL"
  | _ => Option.none

/-- The severity computed by `parse_log_from_otel`:
`log_data.get("severityText", severity_map.get(severity_num, "INFO"))` —
if the `severityText` key is present its value wins verbatim. -/
def json_severity (severityNumber : Nat) (severityText : Option String) : String :=
  severityText.getD ((severity_map_json severityNumber).getD "INFO")

/-- The `severity_map` dict literal of `parse_log_from_proto`
(`otlp_receiver.py`); its keys are the `SeverityNumber` enum values
`SEVERITY_NUMBER_TRACE = 1` … `SEVERITY_NUMBER_FATAL4 = 24`. -/
def severity_map_proto : Nat → Option String
  | 1 | 2 | 3 | 4 => Option.some "TRACE"
  | 5 | 6 | 7 | 8 => Option.some "DEBUG"
  | 9 | 10 | 11 | 12 => Option.some "INFO"
  | 13 | 14 | 15 | 16 => Option.some "WARN"
  | 17 | 18 | 19 | 20 => Option.some "ERROR"
  | 21 | 22 | 23 | 24 => Option.some "FATAL"
  | _ => Option.none

/-- The severity computed by `parse_log_from_proto`:
`severity = severity_map.get(n, "INFO"); if log_pb.severity_text: severity =
log_pb.severity_text` — a proto3 string field is "present" when non-empty. -/
def proto_severity (severityNumber : Nat) (severityText : String) : String :=
  let sev := (severity_map_proto severityNumber).getD "INFO"
  if severityText != "" then severityText else sev

/-- The severity bucketing as the spec words it: fixed ranges 1-4 TRACE,
5-8 DEBUG, 9-12 INFO, 13-16 WARN, 17-20 ERROR, 21-24 FATAL. -/
def spec_severity_bucket (n : Nat) : String :=
  if n ≤ 4 then "TRACE"
  else if n ≤ 8 then "DEBUG"
  else if n ≤ 12 then "INFO"
  else if n ≤ 16 then "WARN"
  else if n ≤ 20 then "ERROR"
  else "FATAL"

mutual
/-- The protobuf `AnyValue` union (`common_pb2.AnyValue`): a oneof holding
at most one of the variants; `unset` is the message with no field set. -/
inductive WireVal where
  | string_value (s : String)
  | int_value (n : Int)
  | double_value (q : ℚ)
  | bool_value (b : Bool)
  | array_value (xs : WireList)
  | kvlist_value (kvs : WireKVList)
  | bytes_value (bs : List Nat)
  | unset

/-- Spine of an `ArrayValue`. -/
inductive WireList where
  | nil
  | cons (v : WireVal) (t : WireList)

/-- Spine of a `KeyValueList`. -/
inductive WireKVList where
  | nil
  | cons (k : String) (v : WireVal) (t : WireKVList)
end

/-- `attr.value.HasField("string_value")`. -/
def WireVal.hasStringValue : WireVal → Bool
  | .string_value _ => true
  | _ => false

/-- `attr.value.HasField("int_value")`. -/
def WireVal.hasIntValue : WireVal → Bool
  | .int_value _ => true
  | _ => false

/-- `attr.value.HasField("double_value")`. -/
def WireVal.hasDoubleValue : WireVal → Bool
  | .double_value _ => true
  | _ => false

/-- `attr.value.HasField("bool_value")`. -/
def WireVal.hasBoolValue : WireVal → Bool
  | .bool_value _ => true
  | _ => false

/-- Proto getter `attr.value.string_value` (default `""` when unset). -/
def WireVal.stringValue : WireVal → String
  | .string_value s => s
  | _ => ""

/-- Proto getter `attr.value.int_value` (default `0`). -/
def WireVal.intValue : WireVal → Int
  | .int_value n => n
  | _ => 0

/-- Proto getter `attr.value.double_value` (default `0`). -/
def WireVal.doubleValue : WireVal → ℚ
  | .double_value q => q
  | _ => 0

/-- Proto getter `attr.value.bool_value` (default `false`). -/
def WireVal.boolValue : WireVal → Bool
  | .bool_value b => b
  | _ => false

mutual
/-- `str(attr.value)` on an `AnyValue` message: a printable rendering
standing for the protobuf text format.  The exact text format is not
modelled; no claim evaluates it, and both the source embedding and the
spec-side union rule coerce the non-scalar kinds through this same
function. -/
def protoShow : WireVal → String
  | .string_value s => "string_value: \x27" ++ s ++ "\x27"
  | .int_value n => "int_value: " ++ toString n
  | .double_value q => "double_value: " ++ toString q
  | .bool_value b => "bool_value: " ++ (if b then "true" else "false")
  | .array_value xs => "array_value: [" ++ protoShowList xs ++ "]"
  | .kvlist_value kvs => "kvlist_value: [" ++ protoShowKVs kvs ++ "]"
  | .bytes_value bs => "bytes_value: " ++ toString bs
  | .unset => ""

/-- Rendering of an `ArrayValue` spine. -/
def protoShowList : WireList → String
  | .nil => ""
  | .cons v .nil => protoShow v
  | .cons v t => protoShow v ++ ", " ++ protoShowList t

/-- Rendering of a `KeyValueList` spine. -/
def protoShowKVs : WireKVList → String
  | .nil => ""
  | .cons k v .nil => k ++ ": " ++ protoShow v
  | .cons k v t => k ++ ": " ++ protoShow v ++ ", " ++ protoShowKVs t
end

/-- A `common_pb2.KeyValue` message. -/
structure PKeyValue where
  key : String
  value : WireVal

/-- The per-value `HasField` elif-chain of `extract_attributes`
(`otlp_receiver.py`): string / int / double / bool kept typed, anything
else coerced through `str(attr.value)`. -/
def extract_attr_value (v : WireVal) : PyVal :=
  if v.hasStringValue then .str v.stringValue
  else if v.hasIntValue then .int v.intValue
  else if v.hasDoubleValue then .float v.doubleValue
  else if v.hasBoolValue then .bool v.boolValue
  else .str (protoShow v)

/-- `extract_attributes(attrs)`: the result dict, as an association list in
encounter order. -/
def extract_attributes (attrs : List PKeyValue) : List (String × PyVal) :=
  attrs.map (fun a => (a.key, extract_attr_value a.value))

/-- The attribute-value union rule as the spec words it: "string as-is;
integer preserved as its natural 64-bit numeric value; double preserved as
float; bool preserved; any other kind coerced to its printable string
form". -/
def spec_attr_value : WireVal → PyVal
  | .string_value s => .str s
  | .int_value n => .int n
  | .double_value q => .float q
  | .bool_value b => .bool b
  | v => .str (protoShow v)

/-- One element of an OTLP-JSON `attributes` array, with the two `dict.get`
accesses the decoders make already resolved: `key` is `attr.get("key", "")`
and `value` is the `"value"` entry when the key is present. -/
structure JKeyVal where
  key : String
  value : Option PyVal

/-- The attribute-value expression of the OTLP-JSON decoders
(`telemetry_store.py` attribute comprehensions):
`attr.get("value", {}).get("stringValue", str(attr.get("value", "")))`.
`Option.none` models the `AttributeError` raised when the `"value"` entry
is not a dict, which the surrounding `except` turns into a `None` parse. -/
def json_attr_value (value : Option PyVal) : Option PyVal :=
  match value with
  | Option.none => Option.some (.str "")
  | Option.some (PyVal.dict kvs) =>
      Option.some ((kvs.lookup "stringValue").getD (.str (pyStr (.dict kvs))))
  | Option.some _ => Option.none

/-- The OTLP-JSON attributes comprehension: a dict in encounter order. -/
def json_attributes (attrs : List JKeyVal) : Option (List (String × PyVal)) :=
  attrs.mapM (fun a => (json_attr_value a.value).map (fun v => (a.key, v)))

/-- The resource-attribute value expression of the OTLP-JSON decoders:
`attr.get("value", {}).get("stringValue", "")`. -/
def json_resource_attr_value (value : Option PyVal) : Option PyVal :=
  match value with
  | Option.none => Option.some (.str "")
  | Option.some (PyVal.dict kvs) =>
      Option.some ((kvs.lookup "stringValue").getD (.str ""))
  | Option.some _ => Option.none

/-- `d.get(k, default)` on a dict built by repeated assignment: the last
binding of the key wins. -/
def assocGetLast (kvs : List (String × PyVal)) (k : String) : Option PyVal :=
  kvs.reverse.lookup k

/-- `resource_attrs.get("service.name", "unknown")` coerced to `String` for
the typed embedding (a non-string `stringValue` payload, never exercised by
any claim, is printed). -/
def json_service_name (resource_attrs : List (String × PyVal)) : String :=
  match assocGetLast resource_attrs "service.name" with
  | Option.some (PyVal.str s) => s
  | Option.some v => pyStr v
  | Option.none => "unknown"

/-- One element of an OTLP-JSON `dataPoints` array, with the `dict.get`
accesses resolved: `timeUnixNano` is `dp.get("timeUnixNano", 0)` (the JSON
string form already read as its integer), `asDouble`/`asInt` model key
presence, and `count` is the histogram sample count (present in histogram
exports; `parse_metric_from_otel` never reads it). -/
structure JDataPoint where
  timeUnixNano : Int
  asDouble : Option ℚ
  asInt : Option Int
  count : Option Nat
  attributes : List JKeyVal

/-- One element of an OTLP-JSON `metrics` array; the `gauge`/`sum`/
`histogram` options model `data_type in metric_data`. -/
structure JMetric where
  name : String
  unit : String
  gauge : Option (List JDataPoint)
  sum : Option (List JDataPoint)
  histogram : Option (List JDataPoint)

/-- One element of an OTLP-JSON `scopeMetrics` array. -/
structure JScopeMetrics where
  metrics : List JMetric

/-- One element of a `resourceMetrics` array: `resource` is the attribute
list when both `"resource" in data` and `"attributes" in data["resource"]`
hold. -/
structure JMetricData where
  resource : Option (List JKeyVal)
  scopeMetrics : List JScopeMetrics

/-- `float(dp.get("asDouble", dp.get("asInt", 0)))` — the value expression
applied to every data point of every metric kind by
`parse_metric_from_otel`. -/
def j_dp_value (dp : JDataPoint) : ℚ :=
  match dp.asDouble with
  | Option.some d => d
  | Option.none =>
      match dp.asInt with
      | Option.some n => (n : ℚ)
      | Option.none => 0

/-- The per-data-point body of `parse_metric_from_otel`'s inner loop. -/
def parse_dps_json (name unit service_name : String) (dps : List JDataPoint) :
    Option (List MetricDataPoint) :=
  dps.mapM (fun dp => (json_attributes dp.attributes).map (fun attrs =>
    { timestamp := parse_otel_timestamp dp.timeUnixNano
      name := name
      value := j_dp_value dp
      service_name := service_name
      «unit» := unit
      attributes := attrs }))

/-- `parse_metric_from_otel(data)` (`telemetry_store.py`): resource
attributes, then for each scope and metric the `["gauge", "sum",
"histogram"]` loop, every kind read through `j_dp_value`; `Option.none`
models both the `except` branch and the final `metrics if metrics else
None`. -/
def parse_metric_from_otel (data : JMetricData) : Option (List MetricDataPoint) := do
  let resource_attrs ← match data.resource with
    | Option.none => Option.some ([] : List (String × PyVal))
    | Option.some attrs =>
        attrs.mapM (fun a => (json_resource_attr_value a.value).map (fun v => (a.key, v)))
  let service_name := json_service_name resource_attrs
  let perScope ← data.scopeMetrics.mapM (fun scope =>
    scope.metrics.mapM (fun m => do
      let g ← match m.gauge with
        | Option.some dps => parse_dps_json m.name m.unit service_name dps
        | Option.none => Option.some []
      let s ← match m.sum with
        | Option.some dps => parse_dps_json m.name m.unit service_name dps
        | Option.none => Option.some []
      let h ← match m.histogram with
        | Option.some dps => parse_dps_json m.name m.unit service_name dps
        | Option.none => Option.some []
      pure (g ++ s ++ h)))
  let metrics := (perScope.map List.flatten).flatten
  match metrics with
  | [] => Option.none
  | ms => Option.some ms

/-- A `NumberDataPoint` message (gauge/sum); the `as_double`/`as_int`
options model the `HasField` checks on the value oneof. -/
structure PNumberDataPoint where
  time_unix_nano : Int
  as_double : Option ℚ
  as_int : Option Int
  attributes : List PKeyValue

/-- A `HistogramDataPoint` message; `count` is the uint64 sample count. -/
structure PHistogramDataPoint where
  time_unix_nano : Int
  count : Nat
  attributes : List PKeyValue

/-- A `Metric` message; the options model `HasField("gauge")` etc. on the
data oneof. -/
structure PMetric where
  name : String
  unit : String
  gauge : Option (List PNumberDataPoint)
  sum : Option (List PNumberDataPoint)
  histogram : Option (List PHistogramDataPoint)

/-- A `ScopeMetrics` message. -/
structure PScopeMetrics where
  metrics : List PMetric

/-- A `Resource` message. -/
structure PResource where
  attributes : List PKeyValue

/-- `extract_resource_attributes(resource)` (`otlp_receiver.py`): the same
`HasField` chain as `extract_attributes`, over the resource's attributes. -/
def extract_resource_attributes (r : PResource) : List (String × PyVal) :=
  r.attributes.map (fun a => (a.key, extract_attr_value a.value))

/-- `resource_attrs.get("service.name", "unknown")` on the proto side. -/
def proto_service_name (r : PResource) : String :=
  json_service_name (extract_resource_attributes r)

/-- `dp.as_double if dp.HasField("as_double") else (dp.as_int if
dp.HasField("as_int") else 0)`, then `float(...)`. -/
def p_dp_value (dp : PNumberDataPoint) : ℚ :=
  match dp.as_double with
  | Option.some d => d
  | Option.none =>
      match dp.as_int with
      | Option.some n => (n : ℚ)
      | Option.none => 0

/-- A gauge/sum data point decoded by `parse_metric_from_proto`. -/
def p_number_point (name unit service_name : String) (dp : PNumberDataPoint) :
    MetricDataPoint :=
  { timestamp := parse_otel_timestamp dp.time_unix_nano
    name := name
    value := p_dp_value dp
    service_name := service_name
    «unit» := unit
    attributes := extract_attributes dp.attributes }

/-- A histogram data point decoded by `parse_metric_from_proto`:
"Use count as the value for histogram" — `value = float(dp.count)`. -/
def p_histogram_point (name unit service_name : String) (dp : PHistogramDataPoint) :
    MetricDataPoint :=
  { timestamp := parse_otel_timestamp dp.time_unix_nano
    name := name
    value := (dp.count : ℚ)
    service_name := service_name
    «unit» := unit
    attributes := extract_attributes dp.attributes }

/-- `parse_metric_from_proto(resource, scope_metric)` (`otlp_receiver.py`). -/
def parse_metric_from_proto (resource : PResource) (scope : PScopeMetrics) :
    List MetricDataPoint :=
  let service_name := proto_service_name resource
  (scope.metrics.map (fun m =>
    (match m.gauge with
      | Option.some dps => dps.map (p_number_point m.name m.unit service_name)
      | Option.none => []) ++
    (match m.sum with
      | Option.some dps => dps.map (p_number_point m.name m.unit service_name)
      | Option.none => []) ++
    (match m.histogram with
      | Option.some dps => dps.map (p_histogram_point m.name m.unit service_name)
      | Option.none => []))).flatten

/-- Python `str.strip()` over the character list model of file content. -/
def pyStrip (l : List Char) : List Char :=
  ((l.dropWhile Char.isWhitespace).reverse.dropWhile Char.isWhitespace).reverse

/-- Python `s.split(sep)` for a one-character separator: `"".split` gives
`[""]`, and empty segments are kept. -/
def splitOnChar (sep : Char) : List Char → List (List Char)
  | [] => [[]]
  | ch :: rest =>
      match splitOnChar sep rest with
      | [] => [[ch]]
      | h :: t => if ch = sep then [] :: h :: t else (ch :: h) :: t

/-- `pathlib.PurePath.suffix` of a file name: the final `"." + extension`,
empty when there is no dot, the dot is the final character, or the dot
leads the name (hidden file).  Directory components are not modelled; the
watcher hands over plain file names. -/
def pathSuffix (p : String) : String :=
  let rev := p.data.reverse
  let ext := rev.takeWhile (fun c => c ≠ '.')
  if ext.length = rev.length then ""
  else if ext.length = 0 then ""
  else if ext.length + 1 = rev.length then ""
  else String.mk ('.' :: ext.reverse)

/-- Dict assignment `d[k] = v` on an association list: overwrite in place,
else append. -/
def assocSet (ps : List (String × Nat)) (k : String) (v : Nat) : List (String × Nat) :=
  match ps with
  | [] => [(k, v)]
  | (k', v') :: t => if k' = k then (k, v) :: t else (k', v') :: assocSet t k v

/-- The state of a `TelemetryFileHandler`: its `_file_positions` map from
file path to byte offset (text offsets are modelled as character counts;
they coincide for the single-byte content the exporters write). -/
structure Handler where
  file_positions : List (String × Nat)

/-- The line loop of `TelemetryFileHandler._process_file`: each non-blank
line through `json.loads` (the oracle `parse`); on a line-level failure the
*whole* new content is tried as one JSON document, and if that succeeds the
loop breaks with that single record; a chunk failing both modes is skipped.
`parse` stands for `json.loads` composed with `_parse_and_store`'s
translation of one decoded document into stored records. -/
def process_lines (parse : List Char → Option α) (whole : List Char) :
    List (List Char) → List α
  | [] => []
  | line :: rest =>
      if pyStrip line = [] then process_lines parse whole rest
      else
        match parse line with
        | Option.some d => d :: process_lines parse whole rest
        | Option.none =>
            match parse whole with
            | Option.some d => [d]
            | Option.none => process_lines parse whole rest

/-- `TelemetryFileHandler._process_file(file_path)` against a file whose
current content is `content`: suffix gate, seek to the stored offset, read
to end (`content.drop last_pos`), record the new offset (`f.tell()`, i.e.
`max last_pos content.length`), return early on blank new content, else
decode the new lines.  The returned list is what the call decodes. -/
def process_file (parse : List Char → Option α) (h : Handler) (path : String)
    (content : List Char) : Handler × List α :=
  if pathSuffix path = ".json" ∨ pathSuffix path = ".jsonl" then
    let last_pos := ((h.file_positions.lookup path).getD 0)
    let new_content := content.drop last_pos
    let h' : Handler := ⟨assocSet h.file_positions path (max last_pos content.length)⟩
    if pyStrip new_content = [] then (h', [])
    else (h', process_lines parse new_content (splitOnChar '\n' (pyStrip new_content)))
  else (h, [])

/-- The line loop of `TelemetryWatcher._load_existing_files` for one file:
every non-blank line through `json.loads`; a failing line is skipped (this
backfill loop has no whole-content fallback). -/
def load_lines (parse : List Char → Option α) (content : List Char) : List α :=
  (splitOnChar '\n' (pyStrip content)).filterMap (fun line =>
    if pyStrip line = [] then Option.none else parse line)

/-- `TelemetryWatcher._load_existing_files()` over the directory's current
files (`path`, `content` pairs): decode each file fully, then — only `if
self._handler:` — record `len(content)` as the file's offset.  `handler` is
the watcher's `self._handler` at call time. -/
def load_existing_files (parse : List Char → Option α) (handler : Option Handler)
    (files : List (String × List Char)) : Option Handler × List α :=
  files.foldl (fun acc f =>
    let records := load_lines parse f.2
    let handler' := acc.1.map (fun hh => ⟨assocSet hh.file_positions f.1 f.2.length⟩)
    (handler', acc.2 ++ records)) (handler, [])

/-- `TelemetryWatcher.start()`: runs `_load_existing_files()` *before*
creating `self._handler = TelemetryFileHandler(store)`, and returns the
handler that the observer is scheduled with, paired with the records the
backfill decoded. -/
def watcher_start (parse : List Char → Option α) (files : List (String × List Char)) :
    Handler × List α :=
  let backfill := load_existing_files parse Option.none files
  let handler : Handler := ⟨[]⟩
  (handler, backfill.2)

/-- Python `needle in hay` on strings: contiguous-substring test. -/
def pySubstr (needle hay : String) : Bool :=
  (List.range (hay.length + 1)).any
    (fun i => (hay.data.drop i).take needle.length == needle.data)

/-- Modelled from the spec: the substring test a span must pass for a
code-filepath/function filter value `v` — "optional substring match on code
filepath/function"; an entity without the code field cannot match. -/
def code_field_matches (v : String) (field : Option String) : Bool :=
  match field with
  | Option.some w => pySubstr v w
  | Option.none => false

/-- Modelled from the spec: the code-location-aware
`TelemetryStore.get_recent_spans(limit, service, errors_only, since,
code_filepath, code_function)`.  `server.py` (`get_code_locations`) and
`otlp_receiver.py` are written against a `telemetry_store.py` with this
signature and with `extract_code_info`; that version is not among the
provided sources, so the two code filters follow the spec's words —
"applies filters (exact-match service, …, optional substring match on code
filepath/function), sorts by event time descending, returns the first
`limit`" — appended after the filters of the provided
`get_recent_spans`. -/
def TelemetryStore.get_recent_spans_code (st : TelemetryStore) (limit : Nat)
    (service : Option String) (errors_only : Bool) (since : Option PyTime)
    (code_filepath code_function : Option String) : List Span :=
  let spans := st.spans
  let spans : List Span := match service with
    | Option.some sv => if sv != "" then spans.filter (fun s => s.service_name == sv) else spans
    | Option.none => spans
  let spans := if errors_only then spans.filter (fun s => s.is_error) else spans
  let spans : List Span := match since with
    | Option.some t => spans.filter (fun s => decide (t ≤ s.start_time))
    | Option.none => spans
  let spans : List Span := match code_filepath with
    | Option.some v => if v != "" then spans.filter (fun s => code_field_matches v s.code_filepath) else spans
    | Option.none => spans
  let spans : List Span := match code_function with
    | Option.some v => if v != "" then spans.filter (fun s => code_field_matches v s.code_function) else spans
    | Option.none => spans
  (spans.insertionSort (byKeyDesc Span.start_time)).take limit

/-- Modelled from the spec: the code-location-aware
`TelemetryStore.get_recent_logs`, by the same reading. -/
def TelemetryStore.get_recent_logs_code (st : TelemetryStore) (limit : Nat)
    (service : Option String) (severity : Option String) (errors_only : Bool)
    (since : Option PyTime) (code_filepath code_function : Option String) :
    List LogRecord :=
  let logs := st.logs
  let logs : List LogRecord := match service with
    | Option.some sv => if sv != "" then logs.filter (fun l => l.service_name == sv) else logs
    | Option.none => logs
  let logs : List LogRecord := match severity with
    | Option.some sev => if sev != "" then logs.filter (fun l => l.severity == sev) else logs
    | Option.none => logs
  let logs := if errors_only then logs.filter (fun l => l.is_error) else logs
  let logs : List LogRecord := match since with
    | Option.some t => logs.filter (fun l => decide (t ≤ l.timestamp))
    | Option.none => logs
  let logs : List LogRecord := match code_filepath with
    | Option.some v => if v != "" then logs.filter (fun l => code_field_matches v l.code_filepath) else logs
    | Option.none => logs
  let logs : List LogRecord := match code_function with
    | Option.some v => if v != "" then logs.filter (fun l => code_field_matches v l.code_function) else logs
    | Option.none => logs
  (logs.insertionSort (byKeyDesc LogRecord.timestamp)).take limit

/-- The two entity lists returned by the `get_code_locations` tool. -/
structure CodeLocationsResult where
  spans : List Span
  logs : List LogRecord

/-- The `get_code_locations` branch of `server.py`'s `call_tool`: spans and
logs fetched with the service / errors-only / code-filepath / code-function
filters (and no `since`). -/
def get_code_locations (st : TelemetryStore) (filepath function_arg service : Option String)
    (errors_only : Bool) (limit : Nat) : CodeLocationsResult :=
  { spans := st.get_recent_spans_code limit service errors_only Option.none filepath function_arg
    logs := st.get_recent_logs_code limit service Option.none errors_only Option.none filepath function_arg }

/-- The conjunction of the span filters as one predicate: exact-match
service, error-only, inclusive since, substring on code filepath and code
function (each conjunct `true` when its filter is off).  The conjuncts are
nested with the latest-applied filter outermost, matching the fusion of the
successive `list.filter` passes; as a Boolean conjunction the order is
immaterial. -/
def span_matches (service : Option String) (errors_only : Bool) (since : Option PyTime)
    (code_filepath code_function : Option String) (s : Span) : Bool :=
  (match code_function with
    | Option.some v => if v != "" then code_field_matches v s.code_function else true
    | Option.none => true) &&
  ((match code_filepath with
    | Option.some v => if v != "" then code_field_matches v s.code_filepath else true
    | Option.none => true) &&
  ((match since with
    | Option.some t => decide (t ≤ s.start_time)
    | Option.none => true) &&
  ((if errors_only then s.is_error else true) &&
  (match service with
    | Option.some sv => if sv != "" then s.service_name == sv else true
    | Option.none => true))))

/-- The conjunction of the log filters as one predicate, nested likewise. -/
def log_matches (service : Option String) (severity : Option String) (errors_only : Bool)
    (since : Option PyTime) (code_filepath code_function : Option String)
    (l : LogRecord) : Bool :=
  (match code_function with
    | Option.some v => if v != "" then code_field_matches v l.code_function else true
    | Option.none => true) &&
  ((match code_filepath with
    | Option.some v => if v != "" then code_field_matches v l.code_filepath else true
    | Option.none => true) &&
  ((match since with
    | Option.some t => decide (t ≤ l.timestamp)
    | Option.none => true) &&
  ((if errors_only then l.is_error else true) &&
  ((match severity with
    | Option.some sev => if sev != "" then l.severity == sev else true
    | Option.none => true) &&
  (match service with
    | Option.some sv => if sv != "" then l.service_name == sv else true
    | Option.none => true)))))

deriving instance DecidableEq for PyVal

deriving instance DecidableEq for WireVal

deriving instance DecidableEq for Span

deriving instance DecidableEq for LogRecord

deriving instance DecidableEq for MetricDataPoint

deriving instance DecidableEq for Handler

deriving instance DecidableEq for AnalyzeSummary

/-! ## Generic lemmas about the bounded deques -/

theorem boundedAppend_foldl (N : Nat) (xs : List α) :
    xs.foldl (boundedAppend N) [] = xs.drop (xs.length - N) := by
  induction xs using List.reverseRecOn with
  | nil => simp
  | append_singleton xs x ih =>
      rw [List.foldl_append, List.foldl_cons, List.foldl_nil, ih]
      unfold boundedAppend
      dsimp only
      rcases Nat.lt_or_ge xs.length N with hL | hL
      · have h0 : xs.length - N = 0 := by omega
        rw [h0, List.drop_zero]
      · have hc : (xs.drop (xs.length - N)).length = N := by
          rw [List.length_drop]; omega
        rcases Nat.eq_zero_or_pos N with hN | hN
        · have hcc : xs.drop (xs.length - N) = [] :=
            List.eq_nil_of_length_eq_zero (by rw [hc, hN])
          rw [hcc]
          subst hN
          simp
        · have hge1 : 1 ≤ (xs.drop (xs.length - N)).length := by rw [hc]; omega
          rw [List.length_append, hc]
          have h1 : N + [x].length - N = 1 := by simp
          rw [h1, List.drop_append_of_le_length hge1, List.drop_drop]
          rw [List.length_append]
          rw [List.drop_append_of_le_length (by simp; omega)]
          have h2 : xs.length - N + 1 = xs.length + [x].length - N := by
            simp; omega
          rw [h2]

theorem add_log_spans (st : TelemetryStore) (l : LogRecord) :
    (st.add_log l).spans = st.spans := rfl

theorem add_metric_spans (st : TelemetryStore) (m : MetricDataPoint) :
    (st.add_metric m).spans = st.spans := rfl

theorem foldl_add_span_spans (xs : List Span) :
    ∀ st : TelemetryStore,
      (xs.foldl TelemetryStore.add_span st).spans =
        xs.foldl (boundedAppend st.max_spans) st.spans := by
  induction xs with
  | nil => intro st; rfl
  | cons x xs ih =>
      intro st
      simpa [TelemetryStore.add_span] using ih (st.add_span x)

theorem foldl_add_log_logs (ys : List LogRecord) :
    ∀ st : TelemetryStore,
      (ys.foldl TelemetryStore.add_log st).logs =
        ys.foldl (boundedAppend st.max_logs) st.logs := by
  induction ys with
  | nil => intro st; rfl
  | cons y ys ih =>
      intro st
      simpa [TelemetryStore.add_log] using ih (st.add_log y)

theorem foldl_add_metric_metrics (zs : List MetricDataPoint) :
    ∀ st : TelemetryStore,
      (zs.foldl TelemetryStore.add_metric st).metrics =
        zs.foldl (boundedAppend st.max_metrics) st.metrics := by
  induction zs with
  | nil => intro st; rfl
  | cons z zs ih =>
      intro st
      simpa [TelemetryStore.add_metric] using ih (st.add_metric z)

theorem foldl_add_log_keeps_spans (ys : List LogRecord) :
    ∀ st : TelemetryStore, (ys.foldl TelemetryStore.add_log st).spans = st.spans := by
  induction ys with
  | nil => intro st; rfl
  | cons y ys ih => intro st; simpa using ih (st.add_log y)

theorem foldl_add_metric_keeps_spans (zs : List MetricDataPoint) :
    ∀ st : TelemetryStore, (zs.foldl TelemetryStore.add_metric st).spans = st.spans := by
  induction zs with
  | nil => intro st; rfl
  | cons z zs ih => intro st; simpa using ih (st.add_metric z)

theorem foldl_add_metric_keeps_logs (zs : List MetricDataPoint) :
    ∀ st : TelemetryStore, (zs.foldl TelemetryStore.add_metric st).logs = st.logs := by
  induction zs with
  | nil => intro st; rfl
  | cons z zs ih => intro st; simpa using ih (st.add_metric z)

theorem foldl_add_span_keeps_logs (xs : List Span) :
    ∀ st : TelemetryStore, (xs.foldl TelemetryStore.add_span st).logs = st.logs := by
  induction xs with
  | nil => intro st; rfl
  | cons x xs ih => intro st; simpa using ih (st.add_span x)

theorem foldl_add_span_keeps_metrics (xs : List Span) :
    ∀ st : TelemetryStore, (xs.foldl TelemetryStore.add_span st).metrics = st.metrics := by
  induction xs with
  | nil => intro st; rfl
  | cons x xs ih => intro st; simpa using ih (st.add_span x)

theorem foldl_add_log_keeps_metrics (ys : List LogRecord) :
    ∀ st : TelemetryStore, (ys.foldl TelemetryStore.add_log st).metrics = st.metrics := by
  induction ys with
  | nil => intro st; rfl
  | cons y ys ih => intro st; simpa using ih (st.add_log y)

theorem foldl_add_span_max_logs (xs : List Span) :
    ∀ st : TelemetryStore, (xs.foldl TelemetryStore.add_span st).max_logs = st.max_logs := by
  induction xs with
  | nil => intro st; rfl
  | cons x xs ih => intro st; simpa using ih (st.add_span x)

theorem foldl_add_span_max_metrics (xs : List Span) :
    ∀ st : TelemetryStore, (xs.foldl TelemetryStore.add_span st).max_metrics = st.max_metrics := by
  induction xs with
  | nil => intro st; rfl
  | cons x xs ih => intro st; simpa using ih (st.add_span x)

theorem foldl_add_log_max_metrics (ys : List LogRecord) :
    ∀ st : TelemetryStore, (ys.foldl TelemetryStore.add_log st).max_metrics = st.max_metrics := by
  induction ys with
  | nil => intro st; rfl
  | cons y ys ih => intro st; simpa using ih (st.add_log y)

/-! ## C2 — capacity / FIFO eviction -/

/-- A minimal concrete span used by the capacity and ordering theorems. -/
def spanNamed (nm : String) (t : ℚ) : Span :=
  { trace_id := "T1", span_id := nm, parent_span_id := Option.none, name := nm,
    service_name := "svc", start_time := t, end_time := t, status_code := "OK" }

/-- C2 counterexample: with capacity 3 and five spans A…E inserted (`N = 3`,
`k = 2`), the code retains `[C, D, E]` — the last **3**, not "exactly the
last `k` = 2" as the claim's universal sentence states; its own example
(store holds C,D,E) is what the code does, so the claim as stated is
self-contradictory and false of the code. -/
theorem C2_last_k_counterexample :
    (([spanNamed "A" 1, spanNamed "B" 2, spanNamed "C" 3, spanNamed "D" 4,
       spanNamed "E" 5].foldl TelemetryStore.add_span (TelemetryStore.init 3 3 3)).spans
      = [spanNamed "C" 3, spanNamed "D" 4, spanNamed "E" 5]) ∧
    [spanNamed "C" 3, spanNamed "D" 4, spanNamed "E" 5] ≠
      [spanNamed "D" 4, spanNamed "E" 5] := by
  decide

/-- C2 (amended): inserting `N + k` spans into a fresh store of span
capacity `N` retains exactly the last `N` inserted, in insertion order; the
oldest `k` are gone; insertion always succeeds (the fold is total); and
likewise for `add_log` and `add_metric` with their own capacities. -/
theorem C2_capacity_fifo_amended
    (N K M L P Q : Nat) (xs : List Span) (ys : List LogRecord) (zs : List MetricDataPoint)
    (hx : xs.length = N + K) (hy : ys.length = M + L) (hz : zs.length = P + Q) :
    (zs.foldl TelemetryStore.add_metric
      (ys.foldl TelemetryStore.add_log
        (xs.foldl TelemetryStore.add_span (TelemetryStore.init N M P)))).spans
        = xs.drop K ∧
    (zs.foldl TelemetryStore.add_metric
      (ys.foldl TelemetryStore.add_log
        (xs.foldl TelemetryStore.add_span (TelemetryStore.init N M P)))).logs
        = ys.drop L ∧
    (zs.foldl TelemetryStore.add_metric
      (ys.foldl TelemetryStore.add_log
        (xs.foldl TelemetryStore.add_span (TelemetryStore.init N M P)))).metrics
        = zs.drop Q := by
  refine ⟨?_, ?_, ?_⟩
  · rw [foldl_add_metric_keeps_spans, foldl_add_log_keeps_spans, foldl_add_span_spans]
    have : (TelemetryStore.init N M P).max_spans = N := rfl
    rw [this]
    have : (TelemetryStore.init N M P).spans = [] := rfl
    rw [this, boundedAppend_foldl, hx]
    congr 1
    omega
  · rw [foldl_add_metric_keeps_logs, foldl_add_log_logs, foldl_add_span_max_logs,
      foldl_add_span_keeps_logs]
    have : (TelemetryStore.init N M P).max_logs = M := rfl
    rw [this]
    have : (TelemetryStore.init N M P).logs = [] := rfl
    rw [this, boundedAppend_foldl, hy]
    congr 1
    omega
  · rw [foldl_add_metric_metrics, foldl_add_log_max_metrics, foldl_add_span_max_metrics,
      foldl_add_log_keeps_metrics, foldl_add_span_keeps_metrics]
    have : (TelemetryStore.init N M P).max_metrics = P := rfl
    rw [this]
    have : (TelemetryStore.init N M P).metrics = [] := rfl
    rw [this, boundedAppend_foldl, hz]
    congr 1
    omega

/-- Witness for C2's amended theorem at capacity 3 with 5 spans. -/
theorem C2_capacity_fifo_witness :
    (([spanNamed "A" 1, spanNamed "B" 2, spanNamed "C" 3, spanNamed "D" 4,
       spanNamed "E" 5].foldl TelemetryStore.add_span (TelemetryStore.init 3 0 0)).spans
      = [spanNamed "A" 1, spanNamed "B" 2, spanNamed "C" 3, spanNamed "D" 4,
         spanNamed "E" 5].drop 2) ∧
    (([] : List LogRecord).foldl TelemetryStore.add_log
      ([spanNamed "A" 1, spanNamed "B" 2, spanNamed "C" 3, spanNamed "D" 4,
        spanNamed "E" 5].foldl TelemetryStore.add_span (TelemetryStore.init 3 0 0))).logs
      = ([] : List LogRecord).drop 0 ∧
    (([] : List MetricDataPoint).foldl TelemetryStore.add_metric
      (([] : List LogRecord).foldl TelemetryStore.add_log
        ([spanNamed "A" 1, spanNamed "B" 2, spanNamed "C" 3, spanNamed "D" 4,
          spanNamed "E" 5].foldl TelemetryStore.add_span (TelemetryStore.init 3 0 0)))).metrics
      = ([] : List MetricDataPoint).drop 0 := by
  have h := C2_capacity_fifo_amended 3 2 0 0 0 0
    [spanNamed "A" 1, spanNamed "B" 2, spanNamed "C" 3, spanNamed "D" 4, spanNamed "E" 5]
    [] [] (by decide) (by decide) (by decide)
  exact h

/-! ## C8 — trace retrieval ordering -/

/-- C8: `get_trace` returns exactly the stored spans whose `trace_id`
equals the argument (a permutation of the snapshot filter), sorted
ascending by start time — even for out-of-order insertion, as the closing
concrete instance shows — while every `get_recent_*` query is sorted by
event time descending. -/
theorem C8_get_trace_ascending :
    (∀ (st : TelemetryStore) (tid : String),
       (st.get_trace tid).Perm (st.spans.filter (fun s => s.trace_id == tid)) ∧
       (st.get_trace tid).Sorted (byKeyAsc Span.start_time)) ∧
    (∀ (st : TelemetryStore) (limit : Nat) (service : Option String)
       (errors_only : Bool) (since : Option PyTime),
       (st.get_recent_spans limit service errors_only since).Sorted
         (byKeyDesc Span.start_time)) ∧
    (∀ (st : TelemetryStore) (limit : Nat) (service severity : Option String)
       (errors_only : Bool) (since : Option PyTime),
       (st.get_recent_logs limit service severity errors_only since).Sorted
         (byKeyDesc LogRecord.timestamp)) ∧
    (∀ (st : TelemetryStore) (limit : Nat) (service metric_name : Option String)
       (since : Option PyTime),
       (st.get_recent_metrics limit service metric_name since).Sorted
         (byKeyDesc MetricDataPoint.timestamp)) ∧
    ((((TelemetryStore.init 10 10 10).add_span (spanNamed "s3" 3)).add_span
        (spanNamed "s1" 1)).add_span (spanNamed "s2" 2)).get_trace "T1"
      = [spanNamed "s1" 1, spanNamed "s2" 2, spanNamed "s3" 3] := by
  refine ⟨fun st tid => ⟨?_, ?_⟩, fun st limit service errors_only since => ?_,
    fun st limit service severity errors_only since => ?_,
    fun st limit service metric_name since => ?_, by decide⟩
  · exact List.perm_insertionSort _ _
  · exact List.sorted_insertionSort _ _
  · unfold TelemetryStore.get_recent_spans
    exact (List.sorted_insertionSort _ _).sublist (List.take_sublist _ _)
  · unfold TelemetryStore.get_recent_logs
    exact (List.sorted_insertionSort _ _).sublist (List.take_sublist _ _)
  · unfold TelemetryStore.get_recent_metrics
    exact (List.sorted_insertionSort _ _).sublist (List.take_sublist _ _)

/-! ## C10 — empty-string filters are disabled -/

/-- C10: passing `""` as the service filter of any recent-entry query, the
severity filter of `get_recent_logs`, or the metric-name filter of
`get_recent_metrics`, behaves exactly like passing no filter — `if
service:` is false for `""` — and in particular (closing instance) a span
with a non-empty service name passes a `""` service filter. -/
theorem C10_empty_string_filter_disabled :
    (∀ (st : TelemetryStore) (limit : Nat) (errors_only : Bool) (since : Option PyTime),
       st.get_recent_spans limit (Option.some "") errors_only since
         = st.get_recent_spans limit Option.none errors_only since) ∧
    (∀ (st : TelemetryStore) (limit : Nat) (severity : Option String)
       (errors_only : Bool) (since : Option PyTime),
       st.get_recent_logs limit (Option.some "") severity errors_only since
         = st.get_recent_logs limit Option.none severity errors_only since) ∧
    (∀ (st : TelemetryStore) (limit : Nat) (service : Option String)
       (errors_only : Bool) (since : Option PyTime),
       st.get_recent_logs limit service (Option.some "") errors_only since
         = st.get_recent_logs limit service Option.none errors_only since) ∧
    (∀ (st : TelemetryStore) (limit : Nat) (metric_name : Option String)
       (since : Option PyTime),
       st.get_recent_metrics limit (Option.some "") metric_name since
         = st.get_recent_metrics limit Option.none metric_name since) ∧
    (∀ (st : TelemetryStore) (limit : Nat) (service : Option String)
       (since : Option PyTime),
       st.get_recent_metrics limit service (Option.some "") since
         = st.get_recent_metrics limit service Option.none since) ∧
    (((TelemetryStore.init 10 10 10).add_span (spanNamed "sA" 1)).get_recent_spans
        100 (Option.some "") false Option.none = [spanNamed "sA" 1] ∧
      (spanNamed "sA" 1).service_name ≠ "") := by
  refine ⟨fun st limit errors_only since => rfl,
    fun st limit severity errors_only since => rfl,
    fun st limit service errors_only since => ?_,
    fun st limit metric_name since => rfl,
    fun st limit service since => ?_, by decide⟩
  · unfold TelemetryStore.get_recent_logs
    rfl
  · unfold TelemetryStore.get_recent_metrics
    rfl

/-! ## C7 — incident error rate -/

/-- A concrete error span. -/
def spanErr (nm : String) (t : ℚ) : Span :=
  { spanNamed nm t with status_code := "ERROR" }

/-- The three-span window (one error) exhibiting the rounding. -/
def storeThree : TelemetryStore :=
  ([spanErr "e1" 1, spanNamed "o1" 2, spanNamed "o2" 3].foldl
    TelemetryStore.add_span (TelemetryStore.init 10000 10000 5000))

/-- The claim's ten-span, two-error window. -/
def storeTen : TelemetryStore :=
  ([spanErr "e1" 1, spanErr "e2" 2, spanNamed "o1" 3, spanNamed "o2" 4,
    spanNamed "o3" 5, spanNamed "o4" 6, spanNamed "o5" 7, spanNamed "o6" 8,
    spanNamed "o7" 9, spanNamed "o8" 10].foldl
    TelemetryStore.add_span (TelemetryStore.init 10000 10000 5000))

/-- C7 counterexample: over a window holding 3 spans of which 1 errs, the
reported `error_rate_percent` is `round(100/3, 2) = 33.33`, which is *not*
`error_spans / total_spans × 100 = 100/3`: the summary field is the
two-decimal rounding of the ratio, not the ratio itself. -/
theorem C7_error_rate_counterexample :
    (analyze_incident storeThree 1 0).total_spans = 3 ∧
    (analyze_incident storeThree 1 0).error_spans = 1 ∧
    (analyze_incident storeThree 1 0).error_rate_percent = 3333 / 100 ∧
    (analyze_incident storeThree 1 0).error_rate_percent ≠
      ((analyze_incident storeThree 1 0).error_spans : ℚ)
        / ((analyze_incident storeThree 1 0).total_spans : ℚ) * 100 := by
  have h1 : analyze_incident storeThree 1 0 =
      { total_spans := 3, total_logs := 0, error_spans := 1, error_logs := 0,
        error_rate_percent := 3333 / 100, slow_spans_count := 0 } := by
    norm_num [analyze_incident, TelemetryStore.get_errors, TelemetryStore.get_recent_spans,
      TelemetryStore.get_recent_logs, storeThree, TelemetryStore.init, TelemetryStore.add_span,
      boundedAppend, addService, spanErr, spanNamed, Span.is_error, List.filter, List.foldl,
      List.insertionSort, List.orderedInsert, byKeyDesc, Span.duration_ms, pyRound2,
      pyRoundHalfEven, LogRecord.is_error]
  rw [h1]
  refine ⟨rfl, rfl, rfl, by norm_num⟩

/-- C7 (amended): the summary's `error_rate_percent` equals
`error_spans / total_spans × 100` **rounded to two decimals
(round-half-even)**, and is 0 when `total_spans = 0` with no division
fault; 10 total spans with 2 error spans yield exactly 20.0, and an empty
window yields 0. -/
theorem C7_error_rate_amended :
    (∀ (st : TelemetryStore) (m now : ℚ),
       (analyze_incident st m now).error_rate_percent
         = pyRound2 (if (analyze_incident st m now).total_spans = 0 then 0
             else ((analyze_incident st m now).error_spans : ℚ)
               / ((analyze_incident st m now).total_spans : ℚ) * 100)) ∧
    (analyze_incident storeTen 1 0).error_rate_percent = 20 ∧
    (analyze_incident (TelemetryStore.init 10000 10000 5000) 1 0).error_rate_percent = 0 := by
  refine ⟨fun st m now => ?_, ?_, ?_⟩
  case refine_2 =>
    norm_num [analyze_incident, TelemetryStore.get_errors, TelemetryStore.get_recent_spans,
      TelemetryStore.get_recent_logs, storeTen, TelemetryStore.init, TelemetryStore.add_span,
      boundedAppend, addService, spanErr, spanNamed, Span.is_error, List.filter, List.foldl,
      List.insertionSort, List.orderedInsert, byKeyDesc, Span.duration_ms, pyRound2,
      pyRoundHalfEven, LogRecord.is_error]
  case refine_3 =>
    norm_num [analyze_incident, TelemetryStore.get_errors, TelemetryStore.get_recent_spans,
      TelemetryStore.get_recent_logs, TelemetryStore.init, List.filter,
      List.insertionSort, byKeyDesc, pyRound2, pyRoundHalfEven]
  unfold analyze_incident
  dsimp only
  congr 1
  cases h : st.get_recent_spans 200 Option.none false (Option.some (now - m * 60)) with
  | nil => simp
  | cons a l => simp

/-! ## C6 — severity bucketing and override -/

/-- C6: in both ingestion paths every ordinal 1–24 maps to exactly one of
the six bucket names via the spec's fixed ranges (both `severity_map`
tables agree with the range function, whose values lie in the six names),
and an explicit severity text overrides the bucket verbatim — for the JSON
decoder whenever the `severityText` key is present, for the proto decoder
whenever `severity_text` is non-empty (proto3 presence). -/
theorem C6_severity_buckets_and_override :
    (∀ n : Nat, n < 25 → 1 ≤ n →
       severity_map_json n = Option.some (spec_severity_bucket n) ∧
       severity_map_proto n = Option.some (spec_severity_bucket n) ∧
       spec_severity_bucket n ∈ ["TRACE", "DEBUG", "INFO", "WARN", "ERROR", "FATAL"] ∧
       json_severity n Option.none = spec_severity_bucket n ∧
       proto_severity n "" = spec_severity_bucket n) ∧
    (∀ (n : Nat) (t : String), json_severity n (Option.some t) = t) ∧
    (∀ (n : Nat) (t : String), t ≠ "" → proto_severity n t = t) := by
  refine ⟨by decide, fun n t => rfl, fun n t h => ?_⟩
  unfold proto_severity
  simp [h]

/-- Witness for C6 at ordinal 17 (ERROR bucket) and a non-empty override. -/
theorem C6_severity_witness :
    severity_map_json 17 = Option.some (spec_severity_bucket 17) ∧
    proto_severity 3 "Custom" = "Custom" :=
  ⟨(C6_severity_buckets_and_override.1 17 (by decide) (by decide)).1,
    C6_severity_buckets_and_override.2.2 3 "Custom" (by decide)⟩

/-! ## C3 — histogram metric decoding (file vs wire) -/

/-- A histogram data point as the OTLP JSON file export carries it: a
sample count and, as the schema fixes for histogram points, no
`asDouble`/`asInt` entries. -/
def histJDataPoint : JDataPoint :=
  { timeUnixNano := 0, asDouble := Option.none, asInt := Option.none,
    count := Option.some 5, attributes := [] }

/-- A `resourceMetrics` entry holding one histogram metric with the data
point above. -/
def fileHistInput : JMetricData :=
  { resource := Option.none
    scopeMetrics := [⟨[⟨"latency", "ms", Option.none, Option.none,
      Option.some [histJDataPoint]⟩]⟩] }

/-- The corresponding wire-side scope: one histogram metric, one data point
with count 5. -/
def protoHistScope : PScopeMetrics :=
  ⟨[⟨"latency", "ms", Option.none, Option.none,
    Option.some [⟨0, 5, []⟩]⟩]⟩

/-- A `resourceMetrics` entry holding one gauge metric whose data point
carries `asDouble = 7`. -/
def fileGaugeInput : JMetricData :=
  { resource := Option.none
    scopeMetrics := [⟨[⟨"gauge_m", "", Option.some [⟨0, Option.some 7,
      Option.none, Option.none, []⟩], Option.none, Option.none⟩]⟩] }

/-- The corresponding wire-side scope: one gauge metric, `as_double = 7`. -/
def protoGaugeScope : PScopeMetrics :=
  ⟨[⟨"gauge_m", "", Option.some [⟨0, Option.some 7, Option.none, []⟩],
    Option.none, Option.none⟩]⟩

/-- C3 divergence exhibit: for the histogram data point with sample count 5
the wire decoder ("Use count as the value for histogram") yields value 5,
but the file decoder reads histogram points through the same
`dp.get("asDouble", dp.get("asInt", 0))` expression as gauge/sum and yields
value 0 — not the sample count.  Gauge points (final conjuncts) agree
across the two paths on the sample's numeric value, as the claim says. -/
theorem C3_histogram_count_divergence :
    parse_metric_from_otel fileHistInput
      = Option.some [⟨parse_otel_timestamp 0, "latency", 0, "unknown", "ms", []⟩] ∧
    parse_metric_from_proto ⟨[]⟩ protoHistScope
      = [⟨parse_otel_timestamp 0, "latency", 5, "unknown", "ms", []⟩] ∧
    (0 : ℚ) ≠ 5 ∧
    parse_metric_from_otel fileGaugeInput
      = Option.some [⟨parse_otel_timestamp 0, "gauge_m", 7, "unknown", "", []⟩] ∧
    parse_metric_from_proto ⟨[]⟩ protoGaugeScope
      = [⟨parse_otel_timestamp 0, "gauge_m", 7, "unknown", "", []⟩] := by
  refine ⟨rfl, rfl, by norm_num, rfl, rfl⟩

/-! ## C4 — attribute-value union decoding -/

/-- C4 counterexample: in the file path an integer attribute
`{"intValue": "42"}` does not decode to the numeric 42; it decodes to
`str({'intValue': '42'})`, the printable form of the whole value dict. -/
theorem C4_file_int_attr_counterexample :
    json_attr_value (Option.some (PyVal.dict
        (PyKVs.cons "intValue" (PyVal.str "42") PyKVs.nil)))
      = Option.some (PyVal.str "\x7b\x27intValue\x27: \x2742\x27\x7d") ∧
    (PyVal.str "\x7b\x27intValue\x27: \x2742\x27\x7d") ≠ PyVal.int 42 := by
  refine ⟨rfl, by decide⟩

/-- C4 (amended): the wire path decodes the attribute-value union exactly
per the spec's rule (string as-is, integer as a 64-bit numeric value,
double as float, bool as bool, any other kind through its printable string
form); the file path instead keeps only a `stringValue` entry as-is and
coerces an attribute of any other kind to the printable string form of its
whole value object. -/
theorem C4_attr_union_amended :
    (∀ attrs : List PKeyValue,
       extract_attributes attrs = attrs.map (fun a => (a.key, spec_attr_value a.value))) ∧
    (∀ (kvs : PyKVs) (v : PyVal), PyKVs.lookup "stringValue" kvs = Option.some v →
       json_attr_value (Option.some (PyVal.dict kvs)) = Option.some v) ∧
    (∀ kvs : PyKVs, PyKVs.lookup "stringValue" kvs = Option.none →
       json_attr_value (Option.some (PyVal.dict kvs))
         = Option.some (PyVal.str (pyStr (PyVal.dict kvs)))) := by
  refine ⟨fun attrs => ?_, fun kvs v h => ?_, fun kvs h => ?_⟩
  · have hv : ∀ v : WireVal, extract_attr_value v = spec_attr_value v := by
      intro v
      cases v <;> rfl
    simp [extract_attributes, hv]
  · simp [json_attr_value, h]
  · simp [json_attr_value, h]

/-- Witness for C4's amended theorem: a wire integer attribute decodes per
the union rule, and a file attribute with a `stringValue` entry is kept
as-is. -/
theorem C4_attr_union_witness :
    extract_attributes [⟨"k", WireVal.int_value 42⟩]
      = [("k", spec_attr_value (WireVal.int_value 42))] ∧
    json_attr_value (Option.some (PyVal.dict
        (PyKVs.cons "stringValue" (PyVal.str "hi") PyKVs.nil)))
      = Option.some (PyVal.str "hi") :=
  ⟨C4_attr_union_amended.1 [⟨"k", WireVal.int_value 42⟩],
    C4_attr_union_amended.2.1 (PyKVs.cons "stringValue" (PyVal.str "hi") PyKVs.nil)
      (PyVal.str "hi") (by decide)⟩

/-! ## C9 — file-tail idempotence -/

theorem assocSet_lookup (ps : List (String × Nat)) (k : String) (v : Nat) :
    (assocSet ps k v).lookup k = Option.some v := by
  induction ps with
  | nil => simp [assocSet, List.lookup]
  | cons hd t ih =>
      obtain ⟨k', v'⟩ := hd
      by_cases h : k' = k
      · simp [assocSet, h, List.lookup]
      · have hb : (k == k') = false := beq_eq_false_iff_ne.mpr (Ne.symm h)
        simp [assocSet, h, List.lookup, ih, hb]

/-- C9: running `_process_file` twice on a matching file with no
intervening growth decodes zero records the second time, because the first
run stored `f.tell()` — the maximum of the old offset and the file length —
as the file's offset, past all previously-read bytes. -/
theorem C9_tail_idempotent {α : Type} (parse : List Char → Option α)
    (h₀ : Handler) (p : String) (c : List Char)
    (hsuf : pathSuffix p = ".json" ∨ pathSuffix p = ".jsonl") :
    (process_file parse (process_file parse h₀ p c).1 p c).2 = [] ∧
    (process_file parse h₀ p c).1.file_positions.lookup p
      = Option.some (max ((h₀.file_positions.lookup p).getD 0) c.length) := by
  have h1 : (process_file parse h₀ p c).1
      = ⟨assocSet h₀.file_positions p
          (max ((h₀.file_positions.lookup p).getD 0) c.length)⟩ := by
    unfold process_file
    rw [if_pos hsuf]
    dsimp only
    split <;> rfl
  refine ⟨?_, ?_⟩
  · rw [h1]
    unfold process_file
    rw [if_pos hsuf]
    dsimp only
    rw [assocSet_lookup]
    have hdrop : c.drop (max ((h₀.file_positions.lookup p).getD 0) c.length) = [] :=
      List.drop_eq_nil_of_le (le_max_right _ _)
    simp [hdrop, pyStrip]
  · rw [h1]
    exact assocSet_lookup _ _ _

/-- Witness for C9 on a one-character `a.json` with an always-succeeding
parse oracle. -/
theorem C9_tail_idempotent_witness :
    (process_file (fun l => Option.some l)
        (process_file (fun l => Option.some l) ⟨[]⟩ "a.json" "x".data).1
        "a.json" "x".data).2 = ([] : List (List Char)) ∧
    (process_file (fun l => Option.some l) (⟨[]⟩ : Handler) "a.json" "x".data).1.file_positions.lookup "a.json"
      = Option.some (max ((((⟨[]⟩ : Handler)).file_positions.lookup "a.json").getD 0)
          ("x".data.length)) := by
  have h := C9_tail_idempotent (fun l => Option.some l) ⟨[]⟩ "a.json" "x".data
    (Or.inl (by decide))
  simpa using h

/-! ## C1 — startup backfill never records the read offsets -/

/-- C1: the offset-recording step of the startup backfill is dead code.
`start()` runs `_load_existing_files()` *before* `self._handler` is
created, so the `if self._handler:` guard that would store
`len(content)` never fires: concretely, for a watch directory holding one
`trace.json` whose single line decodes to one record, the backfill decodes
that record, yet the handler the live watch is scheduled with has an empty
offset map — and the first create/modify notification with **no**
intervening growth re-reads from offset 0 and decodes the same record
again (one record, not zero).  The final conjunct shows the offset map is
empty after `start()` for *every* directory content, refuting the claimed
"recorded read offset equals its current length". -/
theorem C1_backfill_offsets_lost :
    (watcher_start (fun l => Option.some l) [("trace.json", "r1".data)]).2
      = ["r1".data] ∧
    (watcher_start (fun l => Option.some l) [("trace.json", "r1".data)]).1.file_positions
      = [] ∧
    "r1".data.length ≠ 0 ∧
    (process_file (fun l => Option.some l)
        (watcher_start (fun l => Option.some l) [("trace.json", "r1".data)]).1
        "trace.json" "r1".data).2 = ["r1".data] ∧
    (∀ (α : Type) (parse : List Char → Option α) (files : List (String × List Char)),
       (watcher_start parse files).1.file_positions = []) :=
  ⟨by decide, rfl, by decide, by decide, fun α parse files => rfl⟩

/-! ## C5 — code-location filters compose conjunctively -/

/-- A filter applied under a data-independent guard equals a filter whose
predicate carries the guard pointwise. -/
theorem filter_if_gate (c : Prop) [Decidable c] (p : α → Bool) (l : List α) :
    (if c then l.filter p else l) = l.filter (fun a => if c then p a else true) := by
  split_ifs with h
  · rfl
  · simp

/-- Variant of `filter_if_gate` for a guard over an already-fused filter. -/
theorem filter_if_gate2 (c : Prop) [Decidable c] (p q : α → Bool) (l : List α) :
    (if c then l.filter (fun a => p a && q a) else l.filter q)
      = l.filter (fun a => (if c then p a else true) && q a) := by
  split_ifs with h
  · rfl
  · simp

set_option maxHeartbeats 2000000 in
/-- The successive span filters fuse into the single conjunctive predicate
`span_matches`. -/
theorem get_recent_spans_code_eq_filter (st : TelemetryStore) (limit : Nat)
    (service : Option String) (errors_only : Bool) (since : Option PyTime)
    (fp fn : Option String) :
    st.get_recent_spans_code limit service errors_only since fp fn
      = ((st.spans.filter (span_matches service errors_only since fp fn)).insertionSort
          (byKeyDesc Span.start_time)).take limit := by
  unfold TelemetryStore.get_recent_spans_code
  dsimp only
  refine congrArg (fun l : List Span =>
    (l.insertionSort (byKeyDesc Span.start_time)).take limit) ?_
  generalize st.spans = l
  unfold span_matches
  rcases service with _ | sv <;> rcases since with _ | t <;>
    rcases fp with _ | fpv <;> rcases fn with _ | fnv <;> dsimp only <;>
    simp only [filter_if_gate, filter_if_gate2, List.filter_filter, Bool.true_and,
      Bool.and_true, List.filter_true]

set_option maxHeartbeats 2000000 in
/-- The successive log filters fuse into the single conjunctive predicate
`log_matches`. -/
theorem get_recent_logs_code_eq_filter (st : TelemetryStore) (limit : Nat)
    (service severity : Option String) (errors_only : Bool) (since : Option PyTime)
    (fp fn : Option String) :
    st.get_recent_logs_code limit service severity errors_only since fp fn
      = ((st.logs.filter (log_matches service severity errors_only since fp fn)).insertionSort
          (byKeyDesc LogRecord.timestamp)).take limit := by
  unfold TelemetryStore.get_recent_logs_code
  dsimp only
  refine congrArg (fun l : List LogRecord =>
    (l.insertionSort (byKeyDesc LogRecord.timestamp)).take limit) ?_
  generalize st.logs = l
  unfold log_matches
  rcases service with _ | sv <;> rcases severity with _ | sev <;>
    rcases since with _ | t <;>
    rcases fp with _ | fpv <;> rcases fn with _ | fnv <;> dsimp only <;>
    simp only [filter_if_gate, filter_if_gate2, List.filter_filter, Bool.true_and,
      Bool.and_true, List.filter_true]

/-- C5 (spec-modelled query layer): the successive optional filters of the
code-location-aware queries are equivalent to a single conjunctive
predicate — exact-match service, error-only, inclusive since, substring
match on code filepath and on code function — followed by the
descending sort and `limit` cut; and `get_code_locations` returns exactly
the spans and the logs that pass its filters (with no since filter). -/
theorem C5_filters_conjunctive :
    (∀ (st : TelemetryStore) (limit : Nat) (service : Option String)
       (errors_only : Bool) (since : Option PyTime) (fp fn : Option String),
       st.get_recent_spans_code limit service errors_only since fp fn
         = ((st.spans.filter (span_matches service errors_only since fp fn)).insertionSort
             (byKeyDesc Span.start_time)).take limit) ∧
    (∀ (st : TelemetryStore) (limit : Nat) (service severity : Option String)
       (errors_only : Bool) (since : Option PyTime) (fp fn : Option String),
       st.get_recent_logs_code limit service severity errors_only since fp fn
         = ((st.logs.filter (log_matches service severity errors_only since fp fn)).insertionSort
             (byKeyDesc LogRecord.timestamp)).take limit) ∧
    (∀ (st : TelemetryStore) (fp fn service : Option String)
       (errors_only : Bool) (limit : Nat),
       get_code_locations st fp fn service errors_only limit
         = ⟨((st.spans.filter (span_matches service errors_only Option.none fp fn)).insertionSort
              (byKeyDesc Span.start_time)).take limit,
            ((st.logs.filter (log_matches service Option.none errors_only Option.none fp fn)).insertionSort
              (byKeyDesc LogRecord.timestamp)).take limit⟩) := by
  refine ⟨get_recent_spans_code_eq_filter, get_recent_logs_code_eq_filter,
    fun st fp fn service errors_only limit => ?_⟩
  unfold get_code_locations
  rw [get_recent_spans_code_eq_filter, get_recent_logs_code_eq_filter]
